import Mathlib

/-!
Verification of the Saga/FSM code-generation orchestration engine:
a shallow embedding of the data model (common/src/common/models.py),
the activities (orchestrator/src/orchestrator/activities.py), the agent
retry state machine (orchestrator/src/orchestrator/workflows/agent_workflow.py),
the saga coordinator (orchestrator/src/orchestrator/workflows/main_workflow.py)
and the sandbox environment preparation (sandbox/src/sandbox/docker_manager.py),
with theorems settling the specification's testable properties.

Python `Optional[str]` fields are `Option String`; Python truthiness of such a
field (`if x:`) is `optStrTruthy`.  Python dict access `d.get(k, v)` over the
report summaries is `pyDictGetD` over association lists.  External call results
(LLM service, sandbox HTTP call, compensation activity) are oracles passed in
as function arguments, since the workflow code only consumes their returned
values.
-/

/-- Truthiness of a Python `Optional[str]`: `None` and `""` are falsy. -/
def optStrTruthy : Option String → Bool
  | none => false
  | some s => !s.isEmpty

/-- Python `d.get(k, v)` over an association-list model of a dict. -/
def pyDictGetD {α : Type} (d : List (String × α)) (k : String) (v : α) : α :=
  match d.find? (fun p => p.1 == k) with
  | some p => p.2
  | none => v

/-! ## Data model (common/src/common/models.py) -/

/-- InitialRequest (models.py): the request from the UI to the orchestrator.
`test_files_url` is kept as its string rendering, `max_iterations` as a
natural number (the pydantic bound `0 < max_iterations ≤ 20` is
`InitialRequest.valid`). -/
structure InitialRequest where
  functional_description : String
  test_files_url : String
  max_iterations : Nat
deriving Repr, DecidableEq

/-- Validation bounds pydantic enforces on `InitialRequest`
(`min_length=10`, `gt=0, le=20`). -/
def InitialRequest.valid (r : InitialRequest) : Prop :=
  10 ≤ r.functional_description.length ∧ 0 < r.max_iterations ∧ r.max_iterations ≤ 20

/-- Raw sandbox report as a JSON-ish dict, before pydantic validation:
each required `SandboxResponse` field may be absent.  Summary values are
modelled as integers (the report's `passed`/`failed` counters). -/
structure RawReport where
  summary : Option (List (String × Int)) := none
  tests : Option (List String) := none
  stdout : Option String := none
  stderr : Option String := none
  error : Option String := none
deriving Repr, DecidableEq

/-- SandboxResponse (models.py): `summary`, `tests`, `stdout`, `stderr`
required, `error` optional with default `None`. -/
structure SandboxResponse where
  summary : List (String × Int)
  tests : List String
  stdout : String
  stderr : String
  error : Option String := none
deriving Repr, DecidableEq

/-- Pydantic construction `SandboxResponse(**report)`: fails with a
validation error when a required field is missing. -/
def SandboxResponse.validate (r : RawReport) : Except String SandboxResponse :=
  match r.summary, r.tests, r.stdout, r.stderr with
  | some su, some te, some so, some se =>
      Except.ok { summary := su, tests := te, stdout := so, stderr := se, error := r.error }
  | _, _, _, _ => Except.error "ValidationError: missing required field"

/-- Second component returned by `parse_test_results` (activities.py):
either the dict `{"error": e}`, the full raw report, or the dict
`{"error": "Unknown test outcome", "summary": summary}`. -/
inductive ParseDetails where
  | errorDetail (e : String)
  | fullReport (r : RawReport)
  | unknownOutcome (error : String) (summary : List (String × Int))
deriving Repr, DecidableEq

/-! ## Activities (orchestrator/src/orchestrator/activities.py) -/

/-- parse_test_results (activities.py lines 118-143): validates the raw
report as a `SandboxResponse`, then classifies: truthy `error` field ⇒
TERMINAL_FAILURE; non-empty summary with `failed > 0` ⇒ RETRYABLE_FAILURE;
non-empty summary with `passed > 0` ⇒ PASSED; otherwise TERMINAL_FAILURE
with "Unknown test outcome".  A validation failure is an uncaught exception
of the activity, modelled as `Except.error`. -/
def parse_test_results (report : RawReport) : Except String (String × ParseDetails) :=
  match SandboxResponse.validate report with
  | Except.error e => Except.error e
  | Except.ok resp =>
    if optStrTruthy resp.error then
      Except.ok ("TERMINAL_FAILURE", ParseDetails.errorDetail (resp.error.getD ""))
    else if resp.summary ≠ [] ∧ pyDictGetD resp.summary "failed" 0 > 0 then
      Except.ok ("RETRYABLE_FAILURE", ParseDetails.fullReport report)
    else if resp.summary ≠ [] ∧ pyDictGetD resp.summary "passed" 0 > 0 then
      Except.ok ("PASSED", ParseDetails.fullReport report)
    else
      Except.ok ("TERMINAL_FAILURE", ParseDetails.unknownOutcome "Unknown test outcome" resp.summary)

/-- Python exceptions raised by `generate_code` (activities.py): the
configuration `ValueError`, and the wrapped HTTP error. -/
inductive PyError where
  | valueError (msg : String)
  | runtimeError (msg : String)
deriving Repr, DecidableEq

/-- Exception class name, as Temporal's retry classifier sees it. -/
def PyError.typeName : PyError → String
  | .valueError _ => "ValueError"
  | .runtimeError _ => "RuntimeError"

/-- generate_code (activities.py lines 42-86): `os.getenv` and the HTTP
POST are oracles.  An unset (or empty) endpoint environment variable raises
`ValueError`; an HTTP error status is re-raised as `RuntimeError`. -/
def generate_code (getenv : String → Option String)
    (post : String → String → Except String String)
    (prompt : String) (model_endpoint_env_var : String) : Except PyError String :=
  let model_endpoint := getenv model_endpoint_env_var
  if optStrTruthy model_endpoint = false then
    Except.error (PyError.valueError
      ("Environment variable " ++ model_endpoint_env_var ++ " not set."))
  else
    match post (model_endpoint.getD "") prompt with
    | Except.ok code => Except.ok code
    | Except.error e => Except.error (PyError.runtimeError ("LLM service returned error: " ++ e))

/-! ## Agent state and the refinement prompt -/

/-- AgentState (models.py): the full per-agent workflow state. -/
structure AgentState where
  agent_id : String
  model_endpoint_env_var : String
  trace_id : String
  current_iteration : Nat := 0
  max_iterations : Nat
  initial_request : InitialRequest
  faulty_code : Option String := none
  test_errors : Option ParseDetails := none
deriving Repr, DecidableEq

/-- Rendering of the structured test-error details inside the refinement
prompt, standing in for Python `str(state.test_errors)`. -/
def detailsString : Option ParseDetails → String
  | none => "None"
  | some (ParseDetails.errorDetail e) => e
  | some (ParseDetails.fullReport _) => "report"
  | some (ParseDetails.unknownOutcome e _) => e

/-- refine_prompt (activities.py lines 146-166): builds the correction
prompt from the original description, the faulty code and the test errors. -/
def refine_prompt (state : AgentState) : String :=
  "The original task was: " ++ state.initial_request.functional_description ++
  "\n\nThe following code was generated but failed the tests:\n" ++
  state.faulty_code.getD "" ++
  "\n\nThe test execution failed with the following results:\n" ++
  detailsString state.test_errors ++
  "\n\nBased on the test errors, please provide a corrected version of the Python code."

/-! ## Agent FSM workflow (orchestrator/src/orchestrator/workflows/agent_workflow.py) -/

/-- Observable workflow effects of one agent run, tagged with the zero-based
loop index at which they occur.  `durableSleep` is `workflow.sleep` (the
durable timer primitive); `blockingSleep` stands for an ordinary blocking
sleep (`time.sleep` / `asyncio.sleep`), which the source never calls — it
exists so the absence of blocking sleeps is a provable statement. -/
inductive WfEvent where
  | refineCall (i : Nat)
  | generateCall (i : Nat) (prompt : String)
  | sandboxCall (i : Nat) (code : String) (url : String) (trace : String)
  | parseCall (i : Nat)
  | durableSleep (i : Nat) (seconds : Nat)
  | blockingSleep (i : Nat) (seconds : Nat)
deriving Repr, DecidableEq

/-- ApplicationError as raised by the workflow (temporalio). -/
structure ApplicationError where
  msg : String
  non_retryable : Bool
deriving Repr, DecidableEq

/-- Outcome of one agent workflow run: the returned generated code, a raised
`ApplicationError`, or the terminal failure of an awaited activity (e.g. the
parse activity dying on a validation error). -/
inductive AgentResult where
  | returned (code : String)
  | appError (e : ApplicationError)
  | activityError (msg : String)
deriving Repr, DecidableEq

/-- Completed run of the agent workflow: result, the emitted effect trace in
order, the final `AgentState` and the final `_status` string. -/
structure AgentRun where
  result : AgentResult
  trace : List WfEvent
  state : AgentState
  status : String
deriving Repr, DecidableEq

/-- Results of the awaited external activities, indexed by the zero-based
iteration: `gen i prompt` is what the `generate_code` activity returns,
`report i code` what `run_tests_in_sandbox` returns.  (The workflow consumes
only these returned values.) -/
structure AgentEnv where
  gen : Nat → String → String
  report : Nat → String → RawReport

/-- Message of the max-iterations `ApplicationError`
(agent_workflow.py lines 156-160). -/
def maxIterMsg (agent_id : String) (max_iterations : Nat) : String :=
  "[" ++ agent_id ++ "] Max iterations (" ++ toString max_iterations ++ ") reached."

/-- Message of the terminal-failure `ApplicationError`
(agent_workflow.py lines 139-142). -/
def unrecoverableMsg (agent_id : String) : String :=
  "[" ++ agent_id ++ "] Unrecoverable error in code or tests."

/-- One-to-one translation of the loop body of `AgentFSMWorkflow.execute`
(agent_workflow.py lines 91-160): `fuel` is the number of loop iterations
left, `i` the zero-based loop index, `acc` the effect trace so far in
reverse.  When the loop exhausts, the workflow raises the max-iterations
error; inside an iteration the prompt is refined iff `faulty_code` is truthy,
then generation, sandbox run and parsing happen in order, and the parse
outcome selects return, terminal raise, or a `workflow.sleep(2 ** i)` backoff
followed by the next iteration. -/
def agentIter (env : AgentEnv) : Nat → Nat → AgentState → List WfEvent → AgentRun
  | 0, _, st, acc =>
      { result := AgentResult.appError ⟨maxIterMsg st.agent_id st.max_iterations, true⟩
        trace := acc.reverse, state := st, status := "FAILED" }
  | fuel + 1, i, st, acc =>
      let st1 : AgentState := { st with current_iteration := i + 1 }
      let refining := optStrTruthy st1.faulty_code
      let prompt :=
        if refining then refine_prompt st1
        else st1.initial_request.functional_description
      let acc1 := if refining then WfEvent.refineCall i :: acc else acc
      let generated := env.gen i prompt
      let acc2 := WfEvent.generateCall i prompt :: acc1
      let st2 : AgentState := { st1 with faulty_code := some generated }
      let rep := env.report i generated
      let acc3 := WfEvent.sandboxCall i generated st2.initial_request.test_files_url st2.trace_id :: acc2
      let acc4 := WfEvent.parseCall i :: acc3
      match parse_test_results rep with
      | Except.error e =>
          { result := AgentResult.activityError e, trace := acc4.reverse,
            state := st2, status := "PARSING_RESULTS" }
      | Except.ok (outcome, details) =>
          if outcome = "PASSED" then
            { result := AgentResult.returned generated, trace := acc4.reverse,
              state := st2, status := "SUCCESS" }
          else if outcome = "TERMINAL_FAILURE" then
            { result := AgentResult.appError ⟨unrecoverableMsg st2.agent_id, true⟩,
              trace := acc4.reverse, state := st2, status := "FAILED" }
          else
            let st3 : AgentState := { st2 with test_errors := some details }
            agentIter env fuel (i + 1) st3 (WfEvent.durableSleep i (2 ^ i) :: acc4)

/-- AgentFSMWorkflow.execute (agent_workflow.py lines 82-160): runs the FSM
loop `max_iterations` times starting at index 0. -/
def AgentFSMWorkflow.execute (env : AgentEnv) (state : AgentState) : AgentRun :=
  agentIter env state.max_iterations 0 state []

/-- Count of `generateCall` events (one per generate/test cycle). -/
def genCount (l : List WfEvent) : Nat :=
  l.countP fun e => match e with
    | WfEvent.generateCall _ _ => true
    | _ => false

/-- Count of `sandboxCall` events (one per generate/test cycle). -/
def sandboxCount (l : List WfEvent) : Nat :=
  l.countP fun e => match e with
    | WfEvent.sandboxCall _ _ _ _ => true
    | _ => false

/-- The durable backoff timers of a trace, in order: (loop index, seconds). -/
def sleepEvents (l : List WfEvent) : List (Nat × Nat) :=
  l.filterMap fun e => match e with
    | WfEvent.durableSleep i s => some (i, s)
    | _ => none

/-- Check that a trace uses only the durable timer, never a blocking sleep,
and that every timer issued at loop index `i` lasts exactly `2 ^ i` seconds. -/
def sleepsWellFormed (l : List WfEvent) : Bool :=
  l.all fun e => match e with
    | WfEvent.durableSleep i s => s == 2 ^ i
    | WfEvent.blockingSleep _ _ => false
    | _ => true

/-! ## Saga coordinator (orchestrator/src/orchestrator/workflows/main_workflow.py) -/

/-- Final result of one agent child workflow as the saga observes it:
the child returned its generated code, or raised a terminal failure
surfacing as `ChildWorkflowFailure` with the given cause. -/
inductive AgentOutcome where
  | succeeded (code : String)
  | failed (cause : String)
deriving Repr, DecidableEq

/-- Outcome of one compensation activity call, as collected by
`asyncio.gather(..., return_exceptions=True)`: an exception from one call is
collected as a value, never re-raised. -/
inductive CompOutcome where
  | ok
  | failed (msg : String)
deriving Repr, DecidableEq

/-- FinalOutput (models.py): the saga's final report to the UI.  (The
`errors_a`/`errors_b` fields are never assigned by the workflow and are
omitted here.) -/
structure FinalOutput where
  status : String
  message : String
  workflow_id : String
  trace_id : String
  code_a : Option String := none
  code_b : Option String := none
  diff : Option String := none
deriving Repr, DecidableEq

/-- Completed run of the main saga workflow: the returned `FinalOutput`, the
final `_status`, the compensation calls issued (agent ids, in issue order),
the collected outcome of every issued compensation, and the two derived
child `AgentState`s. -/
structure SagaRun where
  output : FinalOutput
  status : String
  compCalls : List String
  compOutcomes : List (String × CompOutcome)
  agent_a_state : AgentState
  agent_b_state : AgentState
deriving Repr, DecidableEq

/-- Check of `AgentOutcome.succeeded`. -/
def AgentOutcome.isSucceeded : AgentOutcome → Bool
  | .succeeded _ => true
  | .failed _ => false

/-- MainSagaWorkflow.execute (main_workflow.py lines 61-183).  `trace_id`
stands for the one `str(uuid.uuid4())` drawn at saga start; `workflow_id`
for `workflow.info().workflow_id`; `settings` for the search-attribute dict;
`resultA`/`resultB` for the awaited results of the two child workflows and
`comp` for the result of the compensation activity per agent id.  On the
success path both codes are returned and no compensation runs; on any child
failure, each child confirmed succeeded gets exactly one compensation call,
all issued as a fan-out whose outcomes are collected
(`return_exceptions=True`), and the saga returns ROLLED_BACK carrying the
triggering failure's cause.  (`asyncio.gather` raises the first exception;
completion order is modelled as agent A checked first, which no theorem
below depends on beyond the message text.) -/
def MainSagaWorkflow.execute (trace_id workflow_id : String)
    (settings : List (String × String)) (request : InitialRequest)
    (resultA resultB : AgentOutcome) (comp : String → CompOutcome) : SagaRun :=
  let model_a_env_var := pyDictGetD settings "VLLM_MODEL_A_ENV_VAR" "VLLM_MODEL_A_URL"
  let model_b_env_var := pyDictGetD settings "VLLM_MODEL_B_ENV_VAR" "VLLM_MODEL_B_URL"
  let agent_a_state : AgentState :=
    { agent_id := "agent_a", model_endpoint_env_var := model_a_env_var,
      trace_id := trace_id, max_iterations := request.max_iterations,
      initial_request := request }
  let agent_b_state : AgentState :=
    { agent_id := "agent_b", model_endpoint_env_var := model_b_env_var,
      trace_id := trace_id, max_iterations := request.max_iterations,
      initial_request := request }
  match resultA, resultB with
  | AgentOutcome.succeeded code_a, AgentOutcome.succeeded code_b =>
      { output := { status := "SUCCESS", message := "Both agents succeeded.",
                    workflow_id := workflow_id, trace_id := trace_id,
                    code_a := some code_a, code_b := some code_b }
        status := "SUCCESS", compCalls := [], compOutcomes := []
        agent_a_state := agent_a_state, agent_b_state := agent_b_state }
  | ra, rb =>
      let cause :=
        match ra, rb with
        | AgentOutcome.failed m, _ => m
        | _, AgentOutcome.failed m => m
        | _, _ => ""
      let compCalls :=
        (if ra.isSucceeded then ["agent_a"] else []) ++
        (if rb.isSucceeded then ["agent_b"] else [])
      { output := { status := "ROLLED_BACK",
                    message := "Workflow failed and was rolled back. Reason: " ++ cause,
                    workflow_id := workflow_id, trace_id := trace_id }
        status := "ROLLED_BACK", compCalls := compCalls
        compOutcomes := compCalls.map fun a => (a, comp a)
        agent_a_state := agent_a_state, agent_b_state := agent_b_state }

/-! ## Sandbox environment preparation (sandbox/src/sandbox/docker_manager.py) -/

/-- Filesystem paths as absolute component lists (e.g.
`["tmp", "ws", "f.py"]` for `/tmp/ws/f.py`). -/
abbrev FsPath := List String

/-- Resolution of a relative member name against a base directory, the way
the filesystem resolves the target of `os.path.join(path, member.name)` when
the file is written: `..` pops a component, `.` and empty components vanish. -/
def resolveUnder (base : FsPath) : List String → FsPath
  | [] => base
  | c :: rest =>
      if c = ".." then resolveUnder base.dropLast rest
      else if c = "." ∨ c = "" then resolveUnder base rest
      else resolveUnder (base ++ [c]) rest

/-- Result of downloading and opening the test bundle in
`_prepare_environment_sync`: a tar archive given by its member names (as
relative component lists), an `httpx.RequestError`, or a `tarfile.TarError`. -/
inductive BundleFetch where
  | ok (entries : List (List String))
  | requestError (msg : String)
  | tarError (msg : String)
deriving Repr, DecidableEq

/-- SandboxManager._prepare_environment_sync (docker_manager.py lines
168-184): writes `solution.py` into the workspace, downloads the bundle and
calls `tarfile.TarFile.extractall(path=workspace)` on it.  `extractall` is
modelled with its library semantics as the source invokes it — no `filter`
argument and no member check, so every member is written at its resolved
target `os.path.join(workspace, member.name)`, including targets outside the
workspace (CVE-2007-4559 behavior).  The result is the list of filesystem
writes performed, or the raised `SandboxExecutionError` message. -/
def SandboxManager.prepare_environment_sync (workspace : FsPath) (code : String)
    (url : String) (fetch : BundleFetch) : Except String (List FsPath) :=
  let _ := code
  let solutionWrite := workspace ++ ["solution.py"]
  match fetch with
  | BundleFetch.requestError _ =>
      Except.error ("Failed to download test files from " ++ url)
  | BundleFetch.tarError _ =>
      Except.error "Failed to extract test files. Ensure it is a valid tar archive."
  | BundleFetch.ok entries =>
      Except.ok (solutionWrite :: entries.map (resolveUnder workspace))

/-! ## Activity retry policies (agent_workflow.py lines 46-72) -/

/-- RetryPolicy (temporalio.common) as configured in agent_workflow.py.
`maximum_attempts = 0` is Temporal's "unlimited". -/
structure RetryPolicy where
  maximum_attempts : Nat := 0
  non_retryable_error_types : List String := []
deriving Repr, DecidableEq

/-- Retry policy of the `generate_code` activity (agent_workflow.py lines
48-55): at most 3 attempts, `ValueError` classified non-retryable. -/
def generate_code_retry_policy : RetryPolicy :=
  { maximum_attempts := 3, non_retryable_error_types := ["ValueError"] }

/-- Retry policy of the `run_tests_in_sandbox` activity (agent_workflow.py
lines 56-64). -/
def run_tests_retry_policy : RetryPolicy :=
  { maximum_attempts := 5 }

/-- Modelled from the spec: the durable substrate's retry-policy evaluator
(spec section 4.3(d): "a retry policy evaluator per external call,
distinguishing retryable from non-retryable failures by classification") —
the substrate itself is external and not in the repository.  Number of
attempts made of an activity whose every attempt raises `e`: exactly one
when `e`'s class is listed non-retryable, otherwise up to
`maximum_attempts`. -/
def attemptsWhenAlwaysRaising (p : RetryPolicy) (e : PyError) : Nat :=
  if e.typeName ∈ p.non_retryable_error_types then 1 else p.maximum_attempts

/-! ## Theorems: report parsing (claims about parse_test_results) -/

/-- Shorthand for a raw report that carries all four required fields. -/
def mkReport (su : List (String × Int)) (te : List String) (so se : String)
    (err : Option String) : RawReport :=
  { summary := some su, tests := some te, stdout := some so, stderr := some se, error := err }

/-- Concrete retryable report: one failing test, error field absent. -/
def retryReport : RawReport := mkReport [("passed", 0), ("failed", 1)] [] "" "" none

/-- Concrete activity environment in which every sandbox run yields the
retryable report. -/
def envAllFail : AgentEnv := { gen := fun _ _ => "print(0)", report := fun _ _ => retryReport }

/-- Concrete agent state with the given iteration bound. -/
def agentStateExample (m : Nat) : AgentState :=
  { agent_id := "agent_a", model_endpoint_env_var := "VLLM_MODEL_A_URL", trace_id := "t-1",
    max_iterations := m,
    initial_request := ⟨"add two numbers", "http://files.test/t.tar.gz", m⟩ }

/-- A summary key read as positive forces the summary dict to be non-empty,
so the code's redundant `if summary and ...` guard never masks a positive
counter. -/
theorem pyDictGetD_pos_ne_nil {su : List (String × Int)} {k : String}
    (h : pyDictGetD su k 0 > 0) : su ≠ [] := by
  rintro rfl
  simp [pyDictGetD] at h

/-- C10: a validated report with a falsy error field whose summary shows
neither `failed > 0` nor `passed > 0` (for example `passed = 0, failed = 0`)
is classified TERMINAL_FAILURE with the "Unknown test outcome" error. -/
theorem parse_unknown_outcome_terminal
    (su : List (String × Int)) (te : List String) (so se : String) (err : Option String)
    (herr : optStrTruthy err = false)
    (hf : pyDictGetD su "failed" 0 ≤ 0)
    (hp : pyDictGetD su "passed" 0 ≤ 0) :
    parse_test_results (mkReport su te so se err) =
      Except.ok ("TERMINAL_FAILURE", ParseDetails.unknownOutcome "Unknown test outcome" su) := by
  have h1 : ¬(su ≠ [] ∧ pyDictGetD su "failed" 0 > 0) := by
    rintro ⟨-, hgt⟩
    omega
  have h2 : ¬(su ≠ [] ∧ pyDictGetD su "passed" 0 > 0) := by
    rintro ⟨-, hgt⟩
    omega
  simp [parse_test_results, mkReport, SandboxResponse.validate, herr, h1, h2]

/-- C10 witness: a well-formed report of a run that collected zero tests
(`passed = 0, failed = 0`, error absent) terminally fails. -/
theorem parse_unknown_outcome_terminal_witness :
    parse_test_results (mkReport [("passed", 0), ("failed", 0)] [] "" "" none) =
      Except.ok ("TERMINAL_FAILURE",
        ParseDetails.unknownOutcome "Unknown test outcome" [("passed", 0), ("failed", 0)]) :=
  parse_unknown_outcome_terminal [("passed", 0), ("failed", 0)] [] "" "" none
    (by decide) (by decide) (by decide)

/-- C4 counterexample: an empty report does not yield a TERMINAL_FAILURE
classification — `SandboxResponse(**{})` dies on pydantic validation, so the
parsing activity raises instead of returning any outcome. -/
theorem parse_empty_report_not_classified :
    parse_test_results {} = Except.error "ValidationError: missing required field" := rfl

/-- C4 (amended): classification of every report carrying the four required
fields — truthy error ⇒ TERMINAL_FAILURE regardless of the summary;
otherwise `failed > 0` ⇒ RETRYABLE_FAILURE (even when `passed > 0` too);
otherwise `passed > 0` ⇒ PASSED; otherwise TERMINAL_FAILURE with "Unknown
test outcome".  A report missing a required field raises a validation error
instead of returning TERMINAL_FAILURE. -/
theorem parse_classification
    (su : List (String × Int)) (te : List String) (so se : String) (err : Option String) :
    (optStrTruthy err = true →
      parse_test_results (mkReport su te so se err) =
        Except.ok ("TERMINAL_FAILURE", ParseDetails.errorDetail (err.getD "")))
    ∧ (optStrTruthy err = false → pyDictGetD su "failed" 0 > 0 →
      parse_test_results (mkReport su te so se err) =
        Except.ok ("RETRYABLE_FAILURE", ParseDetails.fullReport (mkReport su te so se err)))
    ∧ (optStrTruthy err = false → pyDictGetD su "failed" 0 ≤ 0 → pyDictGetD su "passed" 0 > 0 →
      parse_test_results (mkReport su te so se err) =
        Except.ok ("PASSED", ParseDetails.fullReport (mkReport su te so se err)))
    ∧ (optStrTruthy err = false → pyDictGetD su "failed" 0 ≤ 0 → pyDictGetD su "passed" 0 ≤ 0 →
      parse_test_results (mkReport su te so se err) =
        Except.ok ("TERMINAL_FAILURE", ParseDetails.unknownOutcome "Unknown test outcome" su))
    ∧ (∀ r : RawReport,
        r.summary = none ∨ r.tests = none ∨ r.stdout = none ∨ r.stderr = none →
        parse_test_results r = Except.error "ValidationError: missing required field") := by
  refine ⟨?_, ?_, ?_, ?_, ?_⟩
  · intro herr
    simp [parse_test_results, mkReport, SandboxResponse.validate, herr]
  · intro herr hf
    have hne := pyDictGetD_pos_ne_nil hf
    simp [parse_test_results, mkReport, SandboxResponse.validate, herr, hne, hf]
  · intro herr hf hp
    have hne := pyDictGetD_pos_ne_nil hp
    have h1 : ¬(su ≠ [] ∧ pyDictGetD su "failed" 0 > 0) := by
      rintro ⟨-, hgt⟩
      omega
    simp [parse_test_results, mkReport, SandboxResponse.validate, herr, hne, hp, h1, hf]
  · intro herr hf hp
    have h1 : ¬(su ≠ [] ∧ pyDictGetD su "failed" 0 > 0) := by
      rintro ⟨-, hgt⟩
      omega
    have h2 : ¬(su ≠ [] ∧ pyDictGetD su "passed" 0 > 0) := by
      rintro ⟨-, hgt⟩
      omega
    simp [parse_test_results, mkReport, SandboxResponse.validate, herr, h1, h2]
  · intro r h
    rcases r with ⟨osu, ote, oso, ose, oer⟩
    rcases osu with _ | su2 <;> rcases ote with _ | te2 <;>
      rcases oso with _ | so2 <;> rcases ose with _ | se2 <;>
      simp_all [parse_test_results, SandboxResponse.validate]

/-- C4 witness: the scenarios instantiated — failed=2/passed=3 is retryable,
a non-empty error wins over a passing summary, a purely passing summary
passes, and a zero/zero summary terminally fails. -/
theorem parse_classification_witness :
    parse_test_results (mkReport [("failed", 2), ("passed", 3)] [] "" "" none) =
      Except.ok ("RETRYABLE_FAILURE",
        ParseDetails.fullReport (mkReport [("failed", 2), ("passed", 3)] [] "" "" none))
    ∧ parse_test_results (mkReport [("passed", 3), ("failed", 0)] [] "" "" (some "boom")) =
      Except.ok ("TERMINAL_FAILURE", ParseDetails.errorDetail "boom")
    ∧ parse_test_results (mkReport [("passed", 3), ("failed", 0)] [] "" "" none) =
      Except.ok ("PASSED",
        ParseDetails.fullReport (mkReport [("passed", 3), ("failed", 0)] [] "" "" none))
    ∧ parse_test_results (mkReport [("passed", 0), ("failed", 0)] [] "" "" none) =
      Except.ok ("TERMINAL_FAILURE",
        ParseDetails.unknownOutcome "Unknown test outcome" [("passed", 0), ("failed", 0)])
    ∧ parse_test_results { summary := some [("passed", 1)] } =
      Except.error "ValidationError: missing required field" :=
  ⟨(parse_classification [("failed", 2), ("passed", 3)] [] "" "" none).2.1
      (by decide) (by decide),
   (parse_classification [("passed", 3), ("failed", 0)] [] "" "" (some "boom")).1 (by decide),
   (parse_classification [("passed", 3), ("failed", 0)] [] "" "" none).2.2.1
      (by decide) (by decide) (by decide),
   (parse_classification [("passed", 0), ("failed", 0)] [] "" "" none).2.2.2.1
      (by decide) (by decide) (by decide),
   (parse_classification [] [] "" "" none).2.2.2.2 { summary := some [("passed", 1)] }
      (Or.inr (Or.inl rfl))⟩

/-! ## Theorems: configuration error on the code-generation call (C8) -/

/-- C8: when the endpoint environment variable named by the selector is
unset, `generate_code` raises the configuration `ValueError`, that class is
listed non-retryable in the activity's retry policy, and the substrate's
retry evaluator therefore makes exactly one attempt — no retries. -/
theorem missing_endpoint_fails_non_retryable
    (getenv : String → Option String) (post : String → String → Except String String)
    (prompt mvar : String) (h : getenv mvar = none) :
    generate_code getenv post prompt mvar =
      Except.error (PyError.valueError ("Environment variable " ++ mvar ++ " not set."))
    ∧ "ValueError" ∈ generate_code_retry_policy.non_retryable_error_types
    ∧ attemptsWhenAlwaysRaising generate_code_retry_policy
        (PyError.valueError ("Environment variable " ++ mvar ++ " not set.")) = 1 := by
  refine ⟨?_, ?_, ?_⟩
  · simp [generate_code, h, optStrTruthy]
  · simp [generate_code_retry_policy]
  · simp [attemptsWhenAlwaysRaising, generate_code_retry_policy, PyError.typeName]

/-- C8 witness: with an empty environment, the call for
`VLLM_MODEL_A_URL` raises the ValueError and gets a single attempt. -/
theorem missing_endpoint_fails_non_retryable_witness :
    generate_code (fun _ => none) (fun _ _ => Except.ok "code") "add two numbers"
        "VLLM_MODEL_A_URL" =
      Except.error (PyError.valueError "Environment variable VLLM_MODEL_A_URL not set.")
    ∧ attemptsWhenAlwaysRaising generate_code_retry_policy
        (PyError.valueError "Environment variable VLLM_MODEL_A_URL not set.") = 1 :=
  ⟨(missing_endpoint_fails_non_retryable (fun _ => none) (fun _ _ => Except.ok "code")
      "add two numbers" "VLLM_MODEL_A_URL" rfl).1,
   (missing_endpoint_fails_non_retryable (fun _ => none) (fun _ _ => Except.ok "code")
      "add two numbers" "VLLM_MODEL_A_URL" rfl).2.2⟩

/-! ## Theorems: archive extraction and path traversal (C7) -/

/-- C7 (code bug): `_prepare_environment_sync` accepts a bundle whose member
`../evil.py` resolves outside the workspace `/tmp/sandbox-ws` and writes it
at `/tmp/evil.py` — `tar.extractall(path=path)` performs no containment
check, so the archive is not rejected and a file is written outside the
designated workspace directory. -/
theorem extractall_writes_outside_workspace :
    SandboxManager.prepare_environment_sync ["tmp", "sandbox-ws"] "print(1)"
        "http://files.test/tests.tar.gz"
        (BundleFetch.ok [["..", "evil.py"], ["test_solution.py"]]) =
      Except.ok [["tmp", "sandbox-ws", "solution.py"], ["tmp", "evil.py"],
                 ["tmp", "sandbox-ws", "test_solution.py"]]
    ∧ List.isPrefixOf ["tmp", "sandbox-ws"] ["tmp", "evil.py"] = false := by
  refine ⟨rfl, by decide⟩

/-! ## Theorems: saga coordination (C1, C2, C9) -/

/-- C1: whenever either child workflow terminally fails, the saga issues
exactly one compensation call per agent confirmed succeeded and none for a
failed agent, every issued compensation's outcome is collected (so one
compensation's failure never prevents or loses another's outcome), and the
saga finishes ROLLED_BACK for every assignment of compensation outcomes. -/
theorem saga_rollback_compensates_each_succeeded
    (trace_id workflow_id : String) (settings : List (String × String))
    (request : InitialRequest) (resultA resultB : AgentOutcome)
    (comp : String → CompOutcome)
    (h : resultA.isSucceeded = false ∨ resultB.isSucceeded = false) :
    (MainSagaWorkflow.execute trace_id workflow_id settings request resultA resultB comp).status
        = "ROLLED_BACK"
    ∧ (MainSagaWorkflow.execute trace_id workflow_id settings request resultA resultB
        comp).output.status = "ROLLED_BACK"
    ∧ (MainSagaWorkflow.execute trace_id workflow_id settings request resultA resultB
        comp).compCalls.count "agent_a" = (if resultA.isSucceeded then 1 else 0)
    ∧ (MainSagaWorkflow.execute trace_id workflow_id settings request resultA resultB
        comp).compCalls.count "agent_b" = (if resultB.isSucceeded then 1 else 0)
    ∧ (MainSagaWorkflow.execute trace_id workflow_id settings request resultA resultB
        comp).compCalls.length =
        (if resultA.isSucceeded then 1 else 0) + (if resultB.isSucceeded then 1 else 0)
    ∧ (MainSagaWorkflow.execute trace_id workflow_id settings request resultA resultB
        comp).compOutcomes =
        (MainSagaWorkflow.execute trace_id workflow_id settings request resultA resultB
          comp).compCalls.map (fun a => (a, comp a)) := by
  rcases resultA with ca | ma <;> rcases resultB with cb | mb <;>
    simp_all [MainSagaWorkflow.execute, AgentOutcome.isSucceeded, List.count_cons]

/-- C1 witness: agent A succeeded, agent B exhausted its iterations, and the
compensation for A itself fails — still exactly one compensation for A, none
for B, its failing outcome collected, and the saga ends ROLLED_BACK. -/
theorem saga_rollback_compensates_each_succeeded_witness :
    (MainSagaWorkflow.execute "t-1" "wf-1" [] ⟨"add two numbers", "http://files.test/t.tar.gz", 5⟩
        (AgentOutcome.succeeded "print(1)") (AgentOutcome.failed "Max iterations (5) reached.")
        (fun _ => CompOutcome.failed "cleanup broke")).status = "ROLLED_BACK"
    ∧ (MainSagaWorkflow.execute "t-1" "wf-1" [] ⟨"add two numbers", "http://files.test/t.tar.gz", 5⟩
        (AgentOutcome.succeeded "print(1)") (AgentOutcome.failed "Max iterations (5) reached.")
        (fun _ => CompOutcome.failed "cleanup broke")).compCalls.count "agent_a" = 1
    ∧ (MainSagaWorkflow.execute "t-1" "wf-1" [] ⟨"add two numbers", "http://files.test/t.tar.gz", 5⟩
        (AgentOutcome.succeeded "print(1)") (AgentOutcome.failed "Max iterations (5) reached.")
        (fun _ => CompOutcome.failed "cleanup broke")).compCalls.count "agent_b" = 0 := by
  have h := saga_rollback_compensates_each_succeeded "t-1" "wf-1" []
    ⟨"add two numbers", "http://files.test/t.tar.gz", 5⟩
    (AgentOutcome.succeeded "print(1)") (AgentOutcome.failed "Max iterations (5) reached.")
    (fun _ => CompOutcome.failed "cleanup broke") (Or.inr rfl)
  exact ⟨h.1, h.2.2.1, h.2.2.2.1⟩

/-- C2: the saga's outcome has status SUCCESS exactly when both agents
succeeded, and in that case both code artifacts are populated with the two
agents' generated code and no compensation call is issued. -/
theorem saga_success_iff_both_succeed
    (trace_id workflow_id : String) (settings : List (String × String))
    (request : InitialRequest) (resultA resultB : AgentOutcome)
    (comp : String → CompOutcome) :
    ((MainSagaWorkflow.execute trace_id workflow_id settings request resultA resultB
        comp).output.status = "SUCCESS" ↔
      resultA.isSucceeded = true ∧ resultB.isSucceeded = true)
    ∧ (∀ code_a code_b, resultA = AgentOutcome.succeeded code_a →
        resultB = AgentOutcome.succeeded code_b →
        (MainSagaWorkflow.execute trace_id workflow_id settings request resultA resultB
            comp).output.code_a = some code_a
        ∧ (MainSagaWorkflow.execute trace_id workflow_id settings request resultA resultB
            comp).output.code_b = some code_b
        ∧ (MainSagaWorkflow.execute trace_id workflow_id settings request resultA resultB
            comp).output.status = "SUCCESS"
        ∧ (MainSagaWorkflow.execute trace_id workflow_id settings request resultA resultB
            comp).compCalls = []
        ∧ (MainSagaWorkflow.execute trace_id workflow_id settings request resultA resultB
            comp).compOutcomes = []) := by
  rcases resultA with ca | ma <;> rcases resultB with cb | mb <;>
    simp_all [MainSagaWorkflow.execute, AgentOutcome.isSucceeded]

/-- C2 witness: both agents returning code gives SUCCESS with both artifacts
and zero compensation calls. -/
theorem saga_success_iff_both_succeed_witness :
    (MainSagaWorkflow.execute "t-1" "wf-1" [] ⟨"add two numbers", "http://files.test/t.tar.gz", 5⟩
        (AgentOutcome.succeeded "print(1)") (AgentOutcome.succeeded "print(2)")
        (fun _ => CompOutcome.ok)).output.code_a = some "print(1)"
    ∧ (MainSagaWorkflow.execute "t-1" "wf-1" [] ⟨"add two numbers", "http://files.test/t.tar.gz", 5⟩
        (AgentOutcome.succeeded "print(1)") (AgentOutcome.succeeded "print(2)")
        (fun _ => CompOutcome.ok)).output.code_b = some "print(2)"
    ∧ (MainSagaWorkflow.execute "t-1" "wf-1" [] ⟨"add two numbers", "http://files.test/t.tar.gz", 5⟩
        (AgentOutcome.succeeded "print(1)") (AgentOutcome.succeeded "print(2)")
        (fun _ => CompOutcome.ok)).output.status = "SUCCESS"
    ∧ (MainSagaWorkflow.execute "t-1" "wf-1" [] ⟨"add two numbers", "http://files.test/t.tar.gz", 5⟩
        (AgentOutcome.succeeded "print(1)") (AgentOutcome.succeeded "print(2)")
        (fun _ => CompOutcome.ok)).compCalls = [] := by
  have h := (saga_success_iff_both_succeed "t-1" "wf-1" []
    ⟨"add two numbers", "http://files.test/t.tar.gz", 5⟩
    (AgentOutcome.succeeded "print(1)") (AgentOutcome.succeeded "print(2)")
    (fun _ => CompOutcome.ok)).2 "print(1)" "print(2)" rfl rfl
  exact ⟨h.1, h.2.1, h.2.2.1, h.2.2.2.1⟩

/-- C9: the trace id drawn once at saga start is placed byte-identically in
both derived agent states and in the final outcome, on the SUCCESS path and
on the ROLLED_BACK path alike; and the two derived agent states agree on
every field other than `agent_id` and `model_endpoint_env_var`. -/
theorem trace_id_propagated_unchanged
    (trace_id workflow_id : String) (settings : List (String × String))
    (request : InitialRequest) (resultA resultB : AgentOutcome)
    (comp : String → CompOutcome) :
    (MainSagaWorkflow.execute trace_id workflow_id settings request resultA resultB
        comp).agent_a_state.trace_id = trace_id
    ∧ (MainSagaWorkflow.execute trace_id workflow_id settings request resultA resultB
        comp).agent_b_state.trace_id = trace_id
    ∧ (MainSagaWorkflow.execute trace_id workflow_id settings request resultA resultB
        comp).output.trace_id = trace_id
    ∧ { (MainSagaWorkflow.execute trace_id workflow_id settings request resultA resultB
          comp).agent_a_state with
        agent_id := (MainSagaWorkflow.execute trace_id workflow_id settings request resultA
          resultB comp).agent_b_state.agent_id,
        model_endpoint_env_var := (MainSagaWorkflow.execute trace_id workflow_id settings
          request resultA resultB comp).agent_b_state.model_endpoint_env_var } =
      (MainSagaWorkflow.execute trace_id workflow_id settings request resultA resultB
        comp).agent_b_state := by
  rcases resultA with ca | ma <;> rcases resultB with cb | mb <;>
    simp [MainSagaWorkflow.execute]

/-! ## Theorems: the agent retry loop (C3, C5, C6) -/

/-- Invariant of the FSM loop when every parsed report is a
RETRYABLE_FAILURE: starting at loop index `i` with `fuel` iterations left
and trace-so-far `acc`, the run ends in the max-iterations error, performs
one generate call and one sandbox call per remaining iteration, and issues
exactly the backoff timers `(j, 2 ^ j)` for `j = i, ..., i + fuel - 1` after
whatever `acc` already holds. -/
theorem agentIter_retryable_spec (env : AgentEnv)
    (h : ∀ i c, ∃ d, parse_test_results (env.report i c) =
      Except.ok ("RETRYABLE_FAILURE", d)) :
    ∀ (fuel i : Nat) (st : AgentState) (acc : List WfEvent),
      (agentIter env fuel i st acc).result =
          AgentResult.appError ⟨maxIterMsg st.agent_id st.max_iterations, true⟩
      ∧ genCount (agentIter env fuel i st acc).trace = fuel + genCount acc
      ∧ sandboxCount (agentIter env fuel i st acc).trace = fuel + sandboxCount acc
      ∧ sleepEvents (agentIter env fuel i st acc).trace =
          (sleepEvents acc).reverse ++ (List.range' i fuel).map (fun j => (j, 2 ^ j)) := by
  intro fuel
  induction fuel with
  | zero =>
    intro i st acc
    refine ⟨rfl, ?_, ?_, ?_⟩
    · simp [agentIter, genCount, List.countP_reverse]
    · simp [agentIter, sandboxCount, List.countP_reverse]
    · simp [agentIter, sleepEvents, List.filterMap_reverse]
  | succ n ih =>
    intro i st acc
    cases hrf : optStrTruthy st.faulty_code with
    | true =>
      obtain ⟨d, hd⟩ := h i (env.gen i (refine_prompt { st with current_iteration := i + 1 }))
      simp only [agentIter, hrf, hd, if_true, String.reduceEq, reduceIte]
      refine ⟨(ih _ _ _).1, ?_, ?_, ?_⟩
      · rw [(ih _ _ _).2.1]
        simp [genCount, List.countP_cons]
        omega
      · rw [(ih _ _ _).2.2.1]
        simp [sandboxCount, List.countP_cons]
        omega
      · rw [(ih _ _ _).2.2.2]
        simp [sleepEvents, List.range'_succ, List.filterMap_cons]
    | false =>
      obtain ⟨d, hd⟩ := h i (env.gen i st.initial_request.functional_description)
      simp only [agentIter, hrf, hd, Bool.false_eq_true, reduceIte, String.reduceEq]
      refine ⟨(ih _ _ _).1, ?_, ?_, ?_⟩
      · rw [(ih _ _ _).2.1]
        simp [genCount, List.countP_cons]
        omega
      · rw [(ih _ _ _).2.2.1]
        simp [sandboxCount, List.countP_cons]
        omega
      · rw [(ih _ _ _).2.2.2]
        simp [sleepEvents, List.range'_succ, List.filterMap_cons]

/-- C3: for every iteration bound in 1..20, an agent whose every iteration
parses to RETRYABLE_FAILURE performs exactly `max_iterations` generate/test
cycles — never more, never fewer — and then raises the max-iterations
terminal failure. -/
theorem agent_exhausts_exactly_max_iterations
    (env : AgentEnv) (st : AgentState)
    (h1 : 1 ≤ st.max_iterations) (h2 : st.max_iterations ≤ 20)
    (h : ∀ i c, ∃ d, parse_test_results (env.report i c) =
      Except.ok ("RETRYABLE_FAILURE", d)) :
    (AgentFSMWorkflow.execute env st).result =
      AgentResult.appError ⟨maxIterMsg st.agent_id st.max_iterations, true⟩
    ∧ genCount (AgentFSMWorkflow.execute env st).trace = st.max_iterations
    ∧ sandboxCount (AgentFSMWorkflow.execute env st).trace = st.max_iterations := by
  obtain ⟨r1, r2, r3, -⟩ := agentIter_retryable_spec env h st.max_iterations 0 st []
  exact ⟨r1, by simpa [genCount] using r2, by simpa [sandboxCount] using r3⟩

/-- C3 witness: at `max_iterations = 3` the never-passing agent runs exactly
three generate/test cycles and ends in the max-iterations error. -/
theorem agent_exhausts_exactly_max_iterations_witness :
    (AgentFSMWorkflow.execute envAllFail (agentStateExample 3)).result =
      AgentResult.appError ⟨maxIterMsg "agent_a" 3, true⟩
    ∧ genCount (AgentFSMWorkflow.execute envAllFail (agentStateExample 3)).trace = 3
    ∧ sandboxCount (AgentFSMWorkflow.execute envAllFail (agentStateExample 3)).trace = 3 := by
  have h := agent_exhausts_exactly_max_iterations envAllFail (agentStateExample 3)
    (by decide) (by decide) (fun i c => ⟨ParseDetails.fullReport retryReport, rfl⟩)
  exact ⟨h.1, h.2.1, h.2.2⟩

/-- C5 counterexample: with `max_iterations = 1`, the only iteration is the
final one (`current_iteration == max_iterations`), its RETRYABLE_FAILURE
still issues the backoff timer `workflow.sleep(2 ^ 0)` — the trace ends in a
`durableSleep` — and only afterwards does the agent raise the
max-iterations error, contradicting "fails immediately without issuing a
backoff sleep". -/
theorem final_iteration_backoff_counterexample :
    (AgentFSMWorkflow.execute envAllFail (agentStateExample 1)).trace =
      [WfEvent.generateCall 0 "add two numbers",
       WfEvent.sandboxCall 0 "print(0)" "http://files.test/t.tar.gz" "t-1",
       WfEvent.parseCall 0,
       WfEvent.durableSleep 0 1]
    ∧ (AgentFSMWorkflow.execute envAllFail (agentStateExample 1)).result =
      AgentResult.appError ⟨maxIterMsg "agent_a" 1, true⟩ := ⟨rfl, rfl⟩

/-- C5 (amended): a RETRYABLE_FAILURE issues the `2 ^ i` backoff timer on
every iteration including the final one — the loop has no
`current_iteration == max_iterations` check before sleeping — so a
never-passing agent issues exactly one timer per iteration,
`(j, 2 ^ j)` for `j = 0, ..., max_iterations - 1`, and fails with the
max-iterations error only after the final backoff. -/
theorem backoff_issued_every_retryable_iteration
    (env : AgentEnv) (st : AgentState) (h1 : 1 ≤ st.max_iterations)
    (h : ∀ i c, ∃ d, parse_test_results (env.report i c) =
      Except.ok ("RETRYABLE_FAILURE", d)) :
    sleepEvents (AgentFSMWorkflow.execute env st).trace =
      (List.range st.max_iterations).map (fun j => (j, 2 ^ j))
    ∧ (AgentFSMWorkflow.execute env st).result =
      AgentResult.appError ⟨maxIterMsg st.agent_id st.max_iterations, true⟩ := by
  obtain ⟨r1, -, -, r4⟩ := agentIter_retryable_spec env h st.max_iterations 0 st []
  refine ⟨?_, r1⟩
  simpa [sleepEvents, List.range_eq_range'] using r4

/-- C5 witness: at `max_iterations = 2` the never-passing agent issues the
timers `(0, 1)` and `(1, 2)` — one for the final iteration too — then fails. -/
theorem backoff_issued_every_retryable_iteration_witness :
    sleepEvents (AgentFSMWorkflow.execute envAllFail (agentStateExample 2)).trace =
      [(0, 1), (1, 2)]
    ∧ (AgentFSMWorkflow.execute envAllFail (agentStateExample 2)).result =
      AgentResult.appError ⟨maxIterMsg "agent_a" 2, true⟩ := by
  have h := backoff_issued_every_retryable_iteration envAllFail (agentStateExample 2)
    (by decide) (fun i c => ⟨ParseDetails.fullReport retryReport, rfl⟩)
  exact ⟨h.1, h.2⟩

/-- Every trace the FSM loop can emit has well-formed sleeps: only the
durable timer is used, never a blocking sleep, and a timer issued at loop
index `i` lasts exactly `2 ^ i` seconds. -/
theorem agentIter_sleeps_wellFormed (env : AgentEnv) :
    ∀ (fuel i : Nat) (st : AgentState) (acc : List WfEvent),
      sleepsWellFormed acc = true →
      sleepsWellFormed (agentIter env fuel i st acc).trace = true := by
  intro fuel
  induction fuel with
  | zero =>
    intro i st acc hacc
    simpa [agentIter, sleepsWellFormed, List.all_reverse] using hacc
  | succ n ih =>
    intro i st acc hacc
    cases hrf : optStrTruthy st.faulty_code with
    | true =>
      simp only [agentIter, hrf, if_true]
      split
      · simpa [sleepsWellFormed, List.all_reverse] using hacc
      · split
        · simpa [sleepsWellFormed, List.all_reverse] using hacc
        · split
          · simpa [sleepsWellFormed, List.all_reverse] using hacc
          · apply ih
            simpa [sleepsWellFormed] using hacc
    | false =>
      simp only [agentIter, hrf, Bool.false_eq_true, reduceIte]
      split
      · simpa [sleepsWellFormed, List.all_reverse] using hacc
      · split
        · simpa [sleepsWellFormed, List.all_reverse] using hacc
        · split
          · simpa [sleepsWellFormed, List.all_reverse] using hacc
          · apply ih
            simpa [sleepsWellFormed] using hacc

/-- C6: in every agent run — whatever the activities return — each backoff
delay issued after a retryable failure on zero-indexed iteration `i` lasts
exactly `2 ^ i` seconds and goes through the durable timer primitive, and no
ordinary blocking sleep ever occurs. -/
theorem backoff_sleeps_are_exponential_durable (env : AgentEnv) (st : AgentState) :
    sleepsWellFormed (AgentFSMWorkflow.execute env st).trace = true :=
  agentIter_sleeps_wellFormed env st.max_iterations 0 st [] rfl
